import Mathlib

/-!
Verification of the record/retrieval core of the law-firm knowledge-bank app
(`app.py`). Strings are modelled as lists of characters (`Str`); Python string
operations (`in`, `.lower()`, `.replace()`, `.strip()`, slicing, `sorted`) are
translated to executable Lean functions over `Str`, and the Streamlit handlers'
pure record logic (search filter, cross-reference joins, add/edit of judgment
rows, the AI auto-fill parse step, the good-law catalog builder, and the
chat-candidate filter) is embedded as Lean definitions proved against the
stated properties.
-/

namespace KnowledgeBank

/-- Strings are modelled as lists of Unicode scalar values. -/
abbrev Str := List Char

/-- Coerce a Lean string literal into the `Str` model. -/
def S (s : String) : Str := s.data

/-- Python `needle in hay` on strings: contiguous-substring containment,
translated as a scan trying `needle` as a prefix at every suffix of `hay`. -/
def strIn (needle : Str) : Str → Bool
  | [] => needle.isEmpty
  | c :: rest => needle.isPrefixOf (c :: rest) || strIn needle rest

/-- Python `s.lower()`, modelled character-wise. -/
def lower (s : Str) : Str := s.map Char.toLower

/-- Python string `<=` as used by `sorted`: lexicographic comparison by
code point. -/
def strLe : Str → Str → Bool
  | [], _ => true
  | _ :: _, [] => false
  | a :: as, b :: bs => if a = b then strLe as bs else decide (a < b)

/-- Python `str(n)` for a natural number: decimal digits, most significant
first.  The first argument is recursion fuel; `n` itself always suffices. -/
def natToStrGo : Nat → Nat → Str
  | 0, _ => []
  | fuel + 1, n =>
    if n = 0 then [] else natToStrGo fuel (n / 10) ++ [Nat.digitChar (n % 10)]

/-- Python `str(n)` for a natural number. -/
def natToStr (n : Nat) : Str := if n = 0 then S "0" else natToStrGo n n

/-- Decimal value of a digit string; a left inverse of `natToStr` used to
prove id generation injective over distinct timestamps. -/
def strVal (l : Str) : Nat := l.foldl (fun a c => 10 * a + (c.toNat - 48)) 0

/-- A row of the `Judgments` worksheet, one field per column
(ID, Case Name, Act Name, Section Number, Authority, Brief Facts,
Decision Held, PDF File IDs, AI Notes, Status). -/
structure Judgment where
  id : Str
  case_name : Str
  act_name : Str
  section_number : Str
  authority : Str
  brief_facts : Str
  decision_held : Str
  pdf_file_ids : Str
  ai_notes : Str
  status : Str
deriving DecidableEq

/-- A row of the `Internal Usage` worksheet
(ID, Judgment ID, Internal Matter Name, Internal Notice, Usage Notes,
AI Brief). -/
structure InternalUsage where
  id : Str
  judgment_id : Str
  internal_matter_name : Str
  internal_notice : Str
  usage_notes : Str
  ai_brief : Str
deriving DecidableEq

/-- A row of the `Notice Replies` worksheet
(ID, Matter Name, Notice Text, Internal Judgments Used, External References,
Final Reply). -/
structure NoticeReply where
  id : Str
  matter_name : Str
  notice_text : Str
  internal_judgments_used : Str
  external_references : Str
  final_reply : Str
deriving DecidableEq

/-- The universal search of the Search tab (`app.py` lines 191-206): the
entered term is lowercased; an empty term yields all judgments, otherwise a
judgment is kept when the term occurs in its lowercased case name, brief
facts, or decision held. -/
def search (query : Str) (judgments : List Judgment) : List Judgment :=
  let search_term := lower query
  if search_term.isEmpty then judgments
  else judgments.filter (fun row =>
    strIn search_term (lower row.case_name) ||
    strIn search_term (lower row.brief_facts) ||
    strIn search_term (lower row.decision_held))

/-- The id assigned at creation time (`app.py` line 370):
`j_id = str(int(time.time()))`, with `t` the clock reading in whole
seconds. -/
def j_id (t : Nat) : Str := natToStr t

/-- The Add-Judgment form submit handler (`app.py` lines 367-381): when the
three starred fields are non-empty (Python truthiness), a fresh row built
from the form fields is appended to the `Judgments` store; otherwise the
store is left as it is.  `t` is the clock reading used for the id and
`gcs_file_ids` the identifiers of the uploaded blobs, stored comma-joined. -/
def add_judgment_submit (t : Nat)
    (case_name act_name section_num authority brief_facts decision_held
      ai_notes status : Str)
    (gcs_file_ids : List Str) (store : List Judgment) : List Judgment :=
  if !case_name.isEmpty && !brief_facts.isEmpty && !decision_held.isEmpty then
    store ++ [{ id := j_id t, case_name := case_name, act_name := act_name,
                section_number := section_num, authority := authority,
                brief_facts := brief_facts, decision_held := decision_held,
                pdf_file_ids := List.intercalate (S ",") gcs_file_ids,
                ai_notes := ai_notes, status := status }]
  else store

/-- The Internal Usage Log filter (`app.py` lines 229-232): usages whose
`Judgment ID` cell, read as a string, equals the judgment's id string. -/
def usages_for_judgment (j : Judgment) (internal_uses : List InternalUsage) :
    List InternalUsage :=
  internal_uses.filter (fun use => use.judgment_id == j.id)

/-- The reply-citation filter (`app.py` lines 235-238): replies whose
`Internal Judgments Used` cell contains the judgment's case name as a
substring. -/
def replies_citing (j : Judgment) (replies : List NoticeReply) :
    List NoticeReply :=
  replies.filter (fun rep => strIn j.case_name rep.internal_judgments_used)

/-- A raw worksheet row: one string cell per column. -/
abbrev SheetRow := List Str

/-- Column A of a `Judgments` row: ID. -/
def row_id (r : SheetRow) : Str := r.getD 0 []

/-- Column B of a `Judgments` row: Case Name. -/
def row_case_name (r : SheetRow) : Str := r.getD 1 []

/-- Column C of a `Judgments` row: Act Name. -/
def row_act_name (r : SheetRow) : Str := r.getD 2 []

/-- Column D of a `Judgments` row: Section Number. -/
def row_section_number (r : SheetRow) : Str := r.getD 3 []

/-- Column E of a `Judgments` row: Authority. -/
def row_authority (r : SheetRow) : Str := r.getD 4 []

/-- Column F of a `Judgments` row: Brief Facts. -/
def row_brief_facts (r : SheetRow) : Str := r.getD 5 []

/-- Column G of a `Judgments` row: Decision Held. -/
def row_decision_held (r : SheetRow) : Str := r.getD 6 []

/-- Column H of a `Judgments` row: PDF File IDs. -/
def row_pdf_file_ids (r : SheetRow) : Str := r.getD 7 []

/-- Column I of a `Judgments` row: AI Notes. -/
def row_ai_notes (r : SheetRow) : Str := r.getD 8 []

/-- Column J of a `Judgments` row: Status. -/
def row_status (r : SheetRow) : Str := r.getD 9 []

/-- The edit-form save handler (`app.py` lines 256-263): writes the cell
range `B..J` of the located row with the resupplied form values, passing the
row's own `PDF File IDs` and `AI Notes` cells back through unchanged; column
A (ID) lies outside the written range. -/
def edit_form_save (row : SheetRow)
    (e_c_name e_act e_sec e_auth e_facts e_decision e_status : Str) :
    SheetRow :=
  row.take 1 ++ [e_c_name, e_act, e_sec, e_auth, e_facts, e_decision,
                 row_pdf_file_ids row, row_ai_notes row, e_status]

/-- The matter list of the Internal Matters tab (`app.py` lines 288-290):
`list(set(...))` over the truthy `Matter Name` values of the replies followed
by the truthy `Internal Matter Name` values of the quick links.  The
unordered Python set is modelled by `dedup`; the display step sorts the
result, so the unspecified set order is immaterial. -/
def all_matters (replies_data : List NoticeReply)
    (links_data : List InternalUsage) : List Str :=
  (((replies_data.map NoticeReply.matter_name).filter (fun m => !m.isEmpty)) ++
   ((links_data.map InternalUsage.internal_matter_name).filter
      (fun m => !m.isEmpty))).dedup

/-- Insertion of a string into a `strLe`-sorted list, keeping it sorted. -/
def insertSorted (x : Str) : List Str → List Str
  | [] => [x]
  | y :: ys => if strLe x y then x :: y :: ys else y :: insertSorted x ys

/-- Python `sorted` on a list of strings: the unique rearrangement in
ascending lexicographic (code-point) order, computed here by insertion
sort. -/
def sortStr (l : List Str) : List Str := l.foldr insertSorted []

/-- The sorted matter list offered by the selectbox (`app.py` line 293). -/
def all_matters_sorted (replies_data : List NoticeReply)
    (links_data : List InternalUsage) : List Str :=
  sortStr (all_matters replies_data links_data)

/-- Python `s.replace(old, new)` for non-empty `old`: replaces every
non-overlapping occurrence left to right.  Fuel-based recursion; the caller
supplies `s.length`, which always suffices. -/
def replaceAll : Nat → Str → Str → Str → Str
  | 0, s, _, _ => s
  | fuel + 1, s, old, new =>
    match s with
    | [] => []
    | c :: rest =>
      if old.isPrefixOf (c :: rest) && !old.isEmpty then
        new ++ replaceAll fuel ((c :: rest).drop old.length) old new
      else c :: replaceAll fuel rest old new

/-- Python `s.replace(old, new)`. -/
def pyReplace (s old new : Str) : Str := replaceAll s.length s old new

/-- The whitespace class of Python `str.strip()` with no argument: the
characters `str.isspace` accepts (ASCII whitespace, the separator controls
U+001C..U+001F, NEL, NBSP, and the Unicode space separators). -/
def isSpacePy (c : Char) : Bool :=
  (decide (9 ≤ c.toNat) && decide (c.toNat ≤ 13)) ||
  (decide (28 ≤ c.toNat) && decide (c.toNat ≤ 31)) ||
  c.toNat == 32 || c.toNat == 133 || c.toNat == 160 || c.toNat == 0x1680 ||
  (decide (0x2000 ≤ c.toNat) && decide (c.toNat ≤ 0x200A)) ||
  c.toNat == 0x2028 || c.toNat == 0x2029 || c.toNat == 0x202F ||
  c.toNat == 0x205F || c.toNat == 0x3000

/-- Python `s.strip()`: whitespace removed from both ends. -/
def pyStrip (s : Str) : Str :=
  ((s.dropWhile isSpacePy).reverse.dropWhile isSpacePy).reverse

/-- JSON insignificant whitespace (space, tab, line feed, carriage return),
skipped between tokens by the decoder. -/
def skipWs (s : Str) : Str :=
  s.dropWhile (fun c => c = ' ' || c = '\t' || c = '\n' || c = '\r')

/-- A JSON value as produced by Python `json.loads`.  A numeric literal is
kept as its source lexeme, which determines the Python `int` or `float`
value; the decoder's accepted constants `NaN`, `Infinity` and `-Infinity`
are numeric lexemes too. -/
inductive JsonVal where
  | jstr : Str → JsonVal
  | jnum : Str → JsonVal
  | jbool : Bool → JsonVal
  | jnull : JsonVal
  | jarr : List JsonVal → JsonVal
  | jobj : List (Str × JsonVal) → JsonVal

/-- Value of one hexadecimal digit of a `\u` escape. -/
def hexVal (c : Char) : Option Nat :=
  if decide ('0' ≤ c) && decide (c ≤ '9') then some (c.toNat - 48)
  else if decide ('a' ≤ c) && decide (c ≤ 'f') then some (c.toNat - 87)
  else if decide ('A' ≤ c) && decide (c ≤ 'F') then some (c.toNat - 55)
  else none

/-- Exactly four hexadecimal digits of a `\u` escape, as a code unit. -/
def parseHex4 : Str → Option (Nat × Str)
  | a :: b :: c :: d :: rest =>
    match hexVal a, hexVal b, hexVal c, hexVal d with
    | some x, some y, some z, some w =>
      some (((x * 16 + y) * 16 + z) * 16 + w, rest)
    | _, _, _, _ => none
  | _ => none

/-- Modelled from Python `json.loads`: the body of a JSON string after the
opening quote, with the decoder's escapes (quote, backslash, slash,
backspace, form feed, line feed, carriage return, tab, and `\uXXXX` with
surrogate pairs combined) and with raw control characters below U+0020
rejected as in strict mode.  A `\u` escape denoting a lone surrogate would
produce a Python string that the scalar-value model `Str` cannot represent
and is rejected; such responses lie outside this embedding.  Fuel-based
recursion; the input length always suffices. -/
def parseJStringBody : Nat → Str → Option (Str × Str)
  | 0, _ => none
  | fuel + 1, s =>
    match s with
    | [] => none
    | '"' :: rest => some ([], rest)
    | '\\' :: esc =>
      (match esc with
       | '"' :: r => (parseJStringBody fuel r).map (fun p => ('"' :: p.1, p.2))
       | '\\' :: r =>
         (parseJStringBody fuel r).map (fun p => ('\\' :: p.1, p.2))
       | '/' :: r => (parseJStringBody fuel r).map (fun p => ('/' :: p.1, p.2))
       | 'b' :: r =>
         (parseJStringBody fuel r).map (fun p => ('\x08' :: p.1, p.2))
       | 'f' :: r =>
         (parseJStringBody fuel r).map (fun p => ('\x0c' :: p.1, p.2))
       | 'n' :: r =>
         (parseJStringBody fuel r).map (fun p => ('\n' :: p.1, p.2))
       | 'r' :: r =>
         (parseJStringBody fuel r).map (fun p => ('\r' :: p.1, p.2))
       | 't' :: r =>
         (parseJStringBody fuel r).map (fun p => ('\t' :: p.1, p.2))
       | 'u' :: r =>
         (match parseHex4 r with
          | none => none
          | some (n, r2) =>
            if decide (0xD800 ≤ n) && decide (n ≤ 0xDBFF) then
              (match r2 with
               | '\\' :: 'u' :: r3 =>
                 (match parseHex4 r3 with
                  | some (m, r4) =>
                    if decide (0xDC00 ≤ m) && decide (m ≤ 0xDFFF) then
                      (parseJStringBody fuel r4).map (fun p =>
                        (Char.ofNat
                            (0x10000 + (n - 0xD800) * 0x400 + (m - 0xDC00)) ::
                          p.1, p.2))
                    else none
                  | none => none)
               | _ => none)
            else if decide (0xDC00 ≤ n) && decide (n ≤ 0xDFFF) then none
            else (parseJStringBody fuel r2).map
              (fun p => (Char.ofNat n :: p.1, p.2)))
       | _ => none)
    | c :: rest =>
      if c.toNat < 32 then none
      else (parseJStringBody fuel rest).map (fun p => (c :: p.1, p.2))

/-- One or more ASCII decimal digits. -/
def parseDigits1 (s : Str) : Option (Str × Str) :=
  let ds := s.takeWhile Char.isDigit
  if ds.isEmpty then none else some (ds, s.drop ds.length)

/-- The integer part of a JSON number: `0`, or a nonzero digit followed by
digits (no leading zeros). -/
def parseIntPart : Str → Option (Str × Str)
  | '0' :: r => some (['0'], r)
  | c :: r =>
    if decide ('1' ≤ c) && decide (c ≤ '9') then
      some (c :: r.takeWhile Char.isDigit, r.dropWhile Char.isDigit)
    else none
  | [] => none

/-- The optional fraction part `.digits` of a JSON number, consumed only
when complete, as with the decoder's number regular expression. -/
def parseFracPart (s : Str) : Str × Str :=
  match s with
  | '.' :: r =>
    (match parseDigits1 r with
     | some (ds, r2) => ('.' :: ds, r2)
     | none => ([], s))
  | _ => ([], s)

/-- The optional exponent part `[eE][+-]?digits` of a JSON number, consumed
only when complete. -/
def parseExpPart (s : Str) : Str × Str :=
  match s with
  | c :: r =>
    if c = 'e' || c = 'E' then
      match r with
      | sgn :: r1 =>
        if sgn = '+' || sgn = '-' then
          match parseDigits1 r1 with
          | some (ds, r2) => (c :: sgn :: ds, r2)
          | none => ([], s)
        else
          match parseDigits1 r with
          | some (ds, r2) => (c :: ds, r2)
          | none => ([], s)
      | [] => ([], s)
    else ([], s)
  | [] => ([], s)

/-- A JSON numeric literal (`-?(0|[1-9]digits)(.digits)?([eE][+-]?digits)?`,
the decoder's number regular expression), kept as its lexeme. -/
def parseJNumber (s : Str) : Option (Str × Str) :=
  match s with
  | '-' :: r =>
    (match parseIntPart r with
     | some (ip, r1) =>
       let fp := parseFracPart r1
       let ep := parseExpPart fp.2
       some ('-' :: (ip ++ fp.1 ++ ep.1), ep.2)
     | none => none)
  | _ =>
    match parseIntPart s with
    | some (ip, r1) =>
      let fp := parseFracPart r1
      let ep := parseExpPart fp.2
      some (ip ++ fp.1 ++ ep.1, ep.2)
    | none => none

/-- Modelled from Python `json.loads`: one JSON value, returning the parsed
value and the unconsumed rest.  After a comma inside an object or array the
remainder, with its opening bracket restored, is parsed by the same
function and merged; the merged part must be non-empty, so trailing commas
are rejected as the decoder rejects them.  Fuel decreases on every
recursive call and each call receives a strictly shorter input, so the
`length + 1` supplied by `jsonLoads` always suffices (the Python
interpreter recursion limit on very deep nesting is not modelled). -/
def parseJValue : Nat → Str → Option (JsonVal × Str)
  | 0, _ => none
  | fuel + 1, s0 =>
    match skipWs s0 with
    | [] => none
    | '\x7b' :: r =>
      (match skipWs r with
       | '\x7d' :: rest => some (JsonVal.jobj [], rest)
       | '"' :: rk =>
         (match parseJStringBody (rk.length + 1) rk with
          | none => none
          | some (k, r1) =>
            match skipWs r1 with
            | ':' :: r2 =>
              (match parseJValue fuel r2 with
               | none => none
               | some (v, r3) =>
                 match skipWs r3 with
                 | '\x7d' :: rest => some (JsonVal.jobj [(k, v)], rest)
                 | ',' :: r4 =>
                   (match parseJValue fuel ('\x7b' :: r4) with
                    | some (JsonVal.jobj (kv :: kvs), rest) =>
                      some (JsonVal.jobj ((k, v) :: kv :: kvs), rest)
                    | _ => none)
                 | _ => none)
            | _ => none)
       | _ => none)
    | '[' :: r =>
      (match skipWs r with
       | ']' :: rest => some (JsonVal.jarr [], rest)
       | _ =>
         (match parseJValue fuel r with
          | none => none
          | some (v, r1) =>
            match skipWs r1 with
            | ']' :: rest => some (JsonVal.jarr [v], rest)
            | ',' :: r2 =>
              (match parseJValue fuel ('[' :: r2) with
               | some (JsonVal.jarr (w :: ws), rest) =>
                 some (JsonVal.jarr (v :: w :: ws), rest)
               | _ => none)
            | _ => none))
    | '"' :: r =>
      (match parseJStringBody (r.length + 1) r with
       | some (body, rest) => some (JsonVal.jstr body, rest)
       | none => none)
    | s =>
      if (S "true").isPrefixOf s then some (JsonVal.jbool true, s.drop 4)
      else if (S "false").isPrefixOf s then some (JsonVal.jbool false, s.drop 5)
      else if (S "null").isPrefixOf s then some (JsonVal.jnull, s.drop 4)
      else if (S "NaN").isPrefixOf s then some (JsonVal.jnum (S "NaN"), s.drop 3)
      else if (S "Infinity").isPrefixOf s then
        some (JsonVal.jnum (S "Infinity"), s.drop 8)
      else if (S "-Infinity").isPrefixOf s then
        some (JsonVal.jnum (S "-Infinity"), s.drop 9)
      else
        match parseJNumber s with
        | some (lex, rest) => some (JsonVal.jnum lex, rest)
        | none => none

/-- Modelled from Python `json.loads`: one JSON document, with only
whitespace allowed after the value. -/
def jsonLoads (s : Str) : Option JsonVal :=
  match parseJValue (s.length + 1) s with
  | some (v, rest) => if (skipWs rest).isEmpty then some v else none
  | none => none

/-- The `data` dictionary consumed by the auto-fill loop: the parsed JSON
value when it is an object, and `none` when JSON parsing fails or the value
has another shape — in the latter case `data.get` raises `AttributeError`
before any key is assigned and the handler's bare `except` leaves the
buffer alone, the spec's missing-expected-shape `ParseError`. -/
def loadsObject (s : Str) : Option (List (Str × JsonVal)) :=
  match jsonLoads s with
  | some (JsonVal.jobj kvs) => some kvs
  | _ => none

/-- Python `data.get(key, dflt)` on a parsed JSON object: the value of the
last binding of `key` (later duplicates win in a Python dict), else the
default. -/
def dictGet (data : List (Str × JsonVal)) (key : Str) (dflt : JsonVal) :
    JsonVal :=
  match data.reverse.find? (fun p => p.1 == key) with
  | some p => p.2
  | none => dflt

/-- The per-session Add-Judgment form buffer (`st.session_state.form_data`),
one entry per expected metadata key.  Entries are initialised to the empty
string, and a successful auto-fill may store any parsed JSON value in an
entry, exactly as the untyped Python buffer does. -/
structure FormData where
  case_name : JsonVal
  act_name : JsonVal
  section_number : JsonVal
  authority : JsonVal
  brief_facts : JsonVal
  decision_held : JsonVal
  ai_notes : JsonVal

/-- The fence-stripping step of the auto-fill handler (`app.py` line 342):
`res.replace("```json", "").replace("```", "").strip()`. -/
def strip_fences (res : Str) : Str :=
  pyStrip (pyReplace (pyReplace res (S "```json") []) (S "```") [])

/-- The AI auto-fill handler (`app.py` lines 339-347): on an LLM error
(`res = none`) nothing happens; otherwise the response is fence-stripped and
parsed as JSON, and when that yields an object every form-buffer key is
overwritten with `data.get(key, "")`; a parse failure, or a parsed value
that is not an object, leaves the buffer untouched. -/
def ai_auto_fill (form : FormData) (res : Option Str) : FormData :=
  match res with
  | none => form
  | some r =>
    match loadsObject (strip_fences r) with
    | none => form
    | some data =>
      { case_name := dictGet data (S "case_name") (JsonVal.jstr []),
        act_name := dictGet data (S "act_name") (JsonVal.jstr []),
        section_number := dictGet data (S "section_number") (JsonVal.jstr []),
        authority := dictGet data (S "authority") (JsonVal.jstr []),
        brief_facts := dictGet data (S "brief_facts") (JsonVal.jstr []),
        decision_held := dictGet data (S "decision_held") (JsonVal.jstr []),
        ai_notes := dictGet data (S "ai_notes") (JsonVal.jstr []) }

/-- The Good Law status label offered by the status selectboxes. -/
def statusGoodLaw : Str := S "🟢 Good Law"

/-- The Distinguished status label offered by the status selectboxes. -/
def statusDistinguished : Str := S "🟡 Distinguished / Caution"

/-- The Overruled status label offered by the status selectboxes. -/
def statusOverruled : Str := S "🛑 Overruled / Bad Law"

/-- One catalog line of the notice-reply flow (`app.py` line 399):
`f"ID: {j.ID} | Case: {...} | Facts: {...} | Decision: {...}\n\n"`. -/
def catalog_line (j : Judgment) : Str :=
  S "ID: " ++ j.id ++ S " | Case: " ++ j.case_name ++ S " | Facts: " ++
    j.brief_facts ++ S " | Decision: " ++ j.decision_held ++ S "\n\n"

/-- The good-law catalog accumulation (`app.py` lines 396-399): a line is
appended for every judgment whose `Status` cell contains `"Good Law"` as a
substring. -/
def good_law_catalog (all_judgments : List Judgment) : Str :=
  all_judgments.foldl
    (fun acc j => if strIn (S "Good Law") j.status then acc ++ catalog_line j
                  else acc) []

/-- The catalog portion actually embedded in the suggestion prompt
(`app.py` line 406): `good_law_catalog[:30000]`. -/
def good_law_catalog_trunc (all_judgments : List Judgment) : Str :=
  (good_law_catalog all_judgments).take 30000

/-- The Chat-with-PDF candidate filter (`app.py` line 509): rows whose
`PDF File IDs` cell is truthy, i.e. a non-empty string. -/
def chat_judgments (rows : List Judgment) : List Judgment :=
  rows.filter (fun row => !row.pdf_file_ids.isEmpty)

-- ### Concrete records used by witnesses and counterexamples

/-- A blank judgment record, filled in per example. -/
def blankJudgment : Judgment :=
  { id := [], case_name := [], act_name := [], section_number := [],
    authority := [], brief_facts := [], decision_held := [],
    pdf_file_ids := [], ai_notes := [], status := [] }

/-- A blank usage record, filled in per example. -/
def blankUsage : InternalUsage :=
  { id := [], judgment_id := [], internal_matter_name := [],
    internal_notice := [], usage_notes := [], ai_brief := [] }

/-- A blank reply record, filled in per example. -/
def blankReply : NoticeReply :=
  { id := [], matter_name := [], notice_text := [],
    internal_judgments_used := [], external_references := [],
    final_reply := [] }

-- ### Bridging lemmas

theorem strIn_iff_isInfix (needle hay : Str) :
    strIn needle hay = true ↔ needle <:+: hay := by
  induction hay with
  | nil => simp [strIn, List.isEmpty_iff]
  | cons c rest ih =>
    simp [strIn, ih, List.infix_cons_iff, List.isPrefixOf_iff_prefix, or_comm]

theorem strIn_eq_decide (needle hay : Str) :
    strIn needle hay = decide (needle <:+: hay) := by
  rcases h : strIn needle hay with _ | _
  · have hni : ¬ needle <:+: hay := fun hc =>
      by rw [(strIn_iff_isInfix needle hay).2 hc] at h; cases h
    simp [hni]
  · simp [(strIn_iff_isInfix needle hay).1 h]

theorem digitChar_toNat_sub : ∀ d < 10, (Nat.digitChar d).toNat - 48 = d := by
  decide

theorem natToStrGo_foldl :
    ∀ (fuel n : Nat), n ≤ fuel → ∀ init : Nat,
      List.foldl (fun a c => 10 * a + (c.toNat - 48)) init (natToStrGo fuel n) =
        init * 10 ^ (natToStrGo fuel n).length + n := by
  intro fuel
  induction fuel with
  | zero =>
    intro n hn init
    interval_cases n
    simp [natToStrGo]
  | succ fuel ih =>
    intro n hn init
    by_cases h0 : n = 0
    · subst h0; simp [natToStrGo]
    · have hrec : n / 10 ≤ fuel := by
        have : n / 10 < n := Nat.div_lt_self (Nat.pos_of_ne_zero h0) (by omega)
        omega
      have hdig : (Nat.digitChar (n % 10)).toNat - 48 = n % 10 :=
        digitChar_toNat_sub (n % 10) (Nat.mod_lt n (by omega))
      simp only [natToStrGo, h0, if_false]
      rw [List.foldl_append, ih (n / 10) hrec init]
      simp only [List.foldl_cons, List.foldl_nil, List.length_append,
        List.length_cons, List.length_nil, hdig]
      have hmod : 10 * (n / 10) + n % 10 = n := Nat.div_add_mod n 10
      ring_nf
      omega

theorem strVal_natToStr (n : Nat) : strVal (natToStr n) = n := by
  by_cases h : n = 0
  · subst h; decide
  · have := natToStrGo_foldl n n (le_refl n) 0
    simp only [natToStr, h, if_false, strVal]
    rw [this]
    omega

theorem natToStr_inj {a b : Nat} (h : natToStr a = natToStr b) : a = b := by
  have hv := congrArg strVal h
  rwa [strVal_natToStr, strVal_natToStr] at hv

theorem strLe_total (a : Str) : ∀ b : Str, (strLe a b || strLe b a) = true := by
  induction a with
  | nil => intro b; simp [strLe]
  | cons x xs ih =>
    intro b
    cases b with
    | nil => simp [strLe]
    | cons y ys =>
      by_cases h : x = y
      · subst h
        simpa [strLe] using ih ys
      · have h' : ¬ y = x := fun e => h e.symm
        rcases lt_or_gt_of_ne h with hlt | hgt
        · simp [strLe, h, h', hlt]
        · simp [strLe, h, h', hgt]

theorem strLe_trans (a : Str) :
    ∀ b c : Str, strLe a b = true → strLe b c = true → strLe a c = true := by
  induction a with
  | nil => intro b c _ _; simp [strLe]
  | cons x xs ih =>
    intro b c hab hbc
    cases b with
    | nil => simp [strLe] at hab
    | cons y ys =>
      cases c with
      | nil => simp [strLe] at hbc
      | cons z zs =>
        by_cases hxy : x = y <;> by_cases hyz : y = z
        · subst hxy; subst hyz
          simp only [strLe, if_pos rfl] at hab hbc ⊢
          exact ih ys zs hab hbc
        · subst hxy
          simp only [strLe, if_pos rfl, if_neg hyz] at hbc ⊢
          simp only [decide_eq_true_eq] at hbc
          have hxz : ¬ x = z := fun e => absurd (e ▸ hbc) (lt_irrefl x)
          simp [if_neg hxz, hbc]
        · subst hyz
          simp only [strLe, if_neg hxy] at hab ⊢
          simp only [decide_eq_true_eq] at hab
          have hxz : ¬ x = y := hxy
          simp [if_neg hxz, hab]
        · simp only [strLe, if_neg hxy, if_neg hyz, decide_eq_true_eq] at hab hbc
          have hlt : x < z := lt_trans hab hbc
          have hxz : ¬ x = z := fun e => absurd (e ▸ hlt) (lt_irrefl x)
          simp [strLe, if_neg hxz, hlt]

theorem strLe_iff_lex (a : Str) :
    ∀ b : Str, strLe a b = true ↔ (List.Lex (· < ·) a b ∨ a = b) := by
  induction a with
  | nil =>
    intro b
    cases b with
    | nil => simp [strLe]
    | cons y ys =>
      simp only [strLe, true_iff]
      exact Or.inl List.Lex.nil
  | cons x xs ih =>
    intro b
    cases b with
    | nil =>
      simp only [strLe, Bool.false_eq_true, false_iff]
      rintro (h | h)
      · exact List.Lex.not_nil_right _ _ h
      · cases h
    | cons y ys =>
      by_cases hxy : x = y
      · subst hxy
        rw [show strLe (x :: xs) (x :: ys) = strLe xs ys from by simp [strLe]]
        rw [ih ys]
        constructor
        · rintro (h | rfl)
          · exact Or.inl (List.Lex.cons h)
          · exact Or.inr rfl
        · rintro (h | h)
          · exact Or.inl (List.Lex.cons_iff.1 h)
          · injection h with _ h2; exact Or.inr h2
      · simp only [strLe, if_neg hxy, decide_eq_true_eq]
        constructor
        · intro hlt; exact Or.inl (List.Lex.rel hlt)
        · rintro (h | h)
          · cases h with
            | cons h => exact absurd rfl hxy
            | rel h => exact h
          · injection h with h1 _; exact absurd h1 hxy

theorem mem_insertSorted (x a : Str) :
    ∀ l : List Str, a ∈ insertSorted x l ↔ a = x ∨ a ∈ l := by
  intro l
  induction l with
  | nil => simp [insertSorted]
  | cons y ys ih =>
    by_cases h : strLe x y
    · simp [insertSorted, h]
    · simp only [insertSorted, if_neg h, List.mem_cons, ih]
      tauto

theorem insertSorted_perm (x : Str) :
    ∀ l : List Str, List.Perm (insertSorted x l) (x :: l) := by
  intro l
  induction l with
  | nil => simp [insertSorted]
  | cons y ys ih =>
    by_cases h : strLe x y
    · simp [insertSorted, h]
    · have h1 : insertSorted x (y :: ys) = y :: insertSorted x ys := by
        simp [insertSorted, h]
      rw [h1]
      exact List.Perm.trans (List.Perm.cons y ih) (List.Perm.swap x y ys)

theorem sortStr_perm : ∀ l : List Str, List.Perm (sortStr l) l := by
  intro l
  induction l with
  | nil => simp [sortStr]
  | cons x xs ih =>
    exact List.Perm.trans (insertSorted_perm x (sortStr xs))
      (List.Perm.cons x ih)

theorem insertSorted_pairwise (x : Str) :
    ∀ l : List Str, l.Pairwise (fun a b => strLe a b = true) →
      (insertSorted x l).Pairwise (fun a b => strLe a b = true) := by
  intro l
  induction l with
  | nil => intro _; simp [insertSorted]
  | cons y ys ih =>
    intro hp
    rcases List.pairwise_cons.1 hp with ⟨hy, hys⟩
    by_cases h : strLe x y
    · rw [show insertSorted x (y :: ys) = x :: y :: ys from by
        simp [insertSorted, h]]
      refine List.pairwise_cons.2 ⟨?_, hp⟩
      intro b hb
      rcases List.mem_cons.1 hb with rfl | hb
      · exact h
      · exact strLe_trans x y b h (hy b hb)
    · have hyx : strLe y x = true := by
        have := strLe_total x y
        rcases Bool.or_eq_true_iff.1 this with h1 | h1
        · exact absurd h1 h
        · exact h1
      rw [show insertSorted x (y :: ys) = y :: insertSorted x ys from by
        simp [insertSorted, h]]
      refine List.pairwise_cons.2 ⟨?_, ih hys⟩
      intro b hb
      rcases (mem_insertSorted x b ys).1 hb with rfl | hb
      · exact hyx
      · exact hy b hb

theorem sortStr_pairwise :
    ∀ l : List Str, (sortStr l).Pairwise (fun a b => strLe a b = true) := by
  intro l
  induction l with
  | nil => simp [sortStr]
  | cons x xs ih => exact insertSorted_pairwise x (sortStr xs) ih

theorem good_law_catalog_foldl (rs : List Judgment) :
    ∀ acc : Str,
      rs.foldl
        (fun acc j => if strIn (S "Good Law") j.status then acc ++ catalog_line j
                      else acc) acc =
      acc ++ ((rs.filter (fun j => strIn (S "Good Law") j.status)).map
        catalog_line).flatten := by
  induction rs with
  | nil => intro acc; simp
  | cons j rest ih =>
    intro acc
    by_cases h : strIn (S "Good Law") j.status
    · simp [List.foldl_cons, h, ih, List.append_assoc]
    · simp [List.foldl_cons, h, ih]

-- ### Claim theorems

/-- C1: for every list of judgment records and every query string, searching
with an empty query returns all records in their original order, and
searching with a non-empty query returns exactly those records whose
lowercased case name, brief facts, or decision held contains the lowercased
query as a contiguous substring, preserving insertion order. -/
theorem C1_search_spec (q : Str) (rs : List Judgment) :
    (q = [] → search q rs = rs) ∧
    (q ≠ [] → search q rs = rs.filter (fun r =>
      decide (lower q <:+: lower r.case_name) ||
      decide (lower q <:+: lower r.brief_facts) ||
      decide (lower q <:+: lower r.decision_held))) := by
  constructor
  · rintro rfl
    simp [search, lower]
  · intro hq
    have hne : ¬ (lower q).isEmpty = true := by
      simp [lower, List.isEmpty_iff, hq]
    simp only [search]
    rw [if_neg hne]
    apply List.filter_congr
    intro r _
    rw [strIn_eq_decide, strIn_eq_decide, strIn_eq_decide]

/-- C1 witness: the non-empty-query branch of `C1_search_spec` applied to a
concrete query and store. -/
theorem C1_search_witness :
    S "roe" ≠ [] ∧
    search (S "roe") [{ blankJudgment with case_name := S "Roe v. Doe" },
                      { blankJudgment with case_name := S "Smith v. Jones" }] =
      [{ blankJudgment with case_name := S "Roe v. Doe" },
       { blankJudgment with case_name := S "Smith v. Jones" }].filter (fun r =>
        decide (lower (S "roe") <:+: lower r.case_name) ||
        decide (lower (S "roe") <:+: lower r.brief_facts) ||
        decide (lower (S "roe") <:+: lower r.decision_held)) :=
  ⟨by decide,
   (C1_search_spec (S "roe")
     [{ blankJudgment with case_name := S "Roe v. Doe" },
      { blankJudgment with case_name := S "Smith v. Jones" }]).2 (by decide)⟩

/-- C2: an Add-Judgment submission with an empty case name, brief facts, or
decision held appends nothing to the Judgments store; when all three starred
fields are non-empty, exactly the new record built from the form fields is
appended. -/
theorem C2_add_judgment (t : Nat) (cn an sn au bf dh ain stt : Str)
    (fids : List Str) (store : List Judgment) :
    ((cn = [] ∨ bf = [] ∨ dh = []) →
      add_judgment_submit t cn an sn au bf dh ain stt fids store = store) ∧
    (cn ≠ [] → bf ≠ [] → dh ≠ [] →
      add_judgment_submit t cn an sn au bf dh ain stt fids store =
        store ++ [{ id := j_id t, case_name := cn, act_name := an,
                    section_number := sn, authority := au, brief_facts := bf,
                    decision_held := dh,
                    pdf_file_ids := List.intercalate (S ",") fids,
                    ai_notes := ain, status := stt }]) := by
  constructor
  · rintro (rfl | rfl | rfl) <;> simp [add_judgment_submit]
  · intro h1 h2 h3
    simp [add_judgment_submit, List.isEmpty_iff, h1, h2, h3]

/-- C2 witness: `C2_add_judgment` applied to a concrete rejected submission
(empty brief facts) and to a concrete accepted one. -/
theorem C2_add_judgment_witness :
    add_judgment_submit 7 (S "Roe v. Doe") [] [] [] [] (S "held") [] statusGoodLaw
      [] [] = [] ∧
    add_judgment_submit 7 (S "Roe v. Doe") [] [] [] (S "facts") (S "held") []
      statusGoodLaw [] [] =
      [] ++ [{ id := j_id 7, case_name := S "Roe v. Doe", act_name := [],
               section_number := [], authority := [], brief_facts := S "facts",
               decision_held := S "held",
               pdf_file_ids := List.intercalate (S ",") [],
               ai_notes := [], status := statusGoodLaw }] :=
  ⟨(C2_add_judgment 7 (S "Roe v. Doe") [] [] [] [] (S "held") [] statusGoodLaw
      [] []).1 (Or.inr (Or.inl rfl)),
   (C2_add_judgment 7 (S "Roe v. Doe") [] [] [] (S "facts") (S "held") []
      statusGoodLaw [] []).2 (by decide) (by decide) (by decide)⟩

/-- C3 counterexample: two distinct Judgment-creation operations submitted
during the same clock second (here both at `int(time.time()) = 1700000001`)
store two different records carrying the very same id, so created ids are
not always fresh or unique. -/
theorem C3_counterexample :
    (add_judgment_submit 1700000001 (S "Smith v. Jones") [] [] [] (S "f2")
        (S "d2") [] statusGoodLaw []
        (add_judgment_submit 1700000001 (S "Roe v. Doe") [] [] [] (S "f1")
          (S "d1") [] statusGoodLaw [] [])).length = 2 ∧
    ((add_judgment_submit 1700000001 (S "Smith v. Jones") [] [] [] (S "f2")
        (S "d2") [] statusGoodLaw []
        (add_judgment_submit 1700000001 (S "Roe v. Doe") [] [] [] (S "f1")
          (S "d1") [] statusGoodLaw [] [])).getD 0 blankJudgment).id =
    ((add_judgment_submit 1700000001 (S "Smith v. Jones") [] [] [] (S "f2")
        (S "d2") [] statusGoodLaw []
        (add_judgment_submit 1700000001 (S "Roe v. Doe") [] [] [] (S "f1")
          (S "d1") [] statusGoodLaw [] [])).getD 1 blankJudgment).id ∧
    ((add_judgment_submit 1700000001 (S "Smith v. Jones") [] [] [] (S "f2")
        (S "d2") [] statusGoodLaw []
        (add_judgment_submit 1700000001 (S "Roe v. Doe") [] [] [] (S "f1")
          (S "d1") [] statusGoodLaw [] [])).getD 0 blankJudgment) ≠
    ((add_judgment_submit 1700000001 (S "Smith v. Jones") [] [] [] (S "f2")
        (S "d2") [] statusGoodLaw []
        (add_judgment_submit 1700000001 (S "Roe v. Doe") [] [] [] (S "f1")
          (S "d1") [] statusGoodLaw [] [])).getD 1 blankJudgment) := by
  refine ⟨rfl, rfl, ?_⟩
  decide

/-- C3 amended: the ids assigned to two Judgment-creation operations are
equal exactly when the whole-second timestamps at which they run are equal;
creations in distinct seconds therefore receive distinct ids, while
creations within one second collide. -/
theorem C3_amended_ids (t1 t2 : Nat) : j_id t1 = j_id t2 ↔ t1 = t2 :=
  ⟨fun h => natToStr_inj h, fun h => by rw [h]⟩

/-- C4: the Internal Usage Log lists exactly the usages whose judgment id,
compared as a string, is character-for-character equal to the judgment's id,
with no whitespace trimming; concretely, id `1700000001` matches a usage
whose judgment id is `1700000001` but not one carrying a trailing space. -/
theorem C4_usages_for_judgment :
    (∀ (j : Judgment) (us : List InternalUsage) (u : InternalUsage),
      u ∈ usages_for_judgment j us ↔ u ∈ us ∧ u.judgment_id = j.id) ∧
    usages_for_judgment { blankJudgment with id := S "1700000001" }
      [{ blankUsage with judgment_id := S "1700000001" },
       { blankUsage with judgment_id := S "1700000001 " }] =
      [{ blankUsage with judgment_id := S "1700000001" }] := by
  constructor
  · intro j us u
    simp [usages_for_judgment, List.mem_filter]
  · decide

/-- C5: the reply-citation lookup returns exactly the notice replies whose
`Internal Judgments Used` field contains the judgment's case name as a
contiguous substring; in particular a reply citing `Smith v. Jones & Co` is
also returned for the judgment named `Smith v. Jones` (the documented
prefix false positive). -/
theorem C5_replies_citing :
    (∀ (j : Judgment) (reps : List NoticeReply) (rep : NoticeReply),
      rep ∈ replies_citing j reps ↔
        rep ∈ reps ∧ j.case_name <:+: rep.internal_judgments_used) ∧
    replies_citing { blankJudgment with case_name := S "Smith v. Jones" }
      [{ blankReply with internal_judgments_used := S "Smith v. Jones" },
       { blankReply with internal_judgments_used := S "Smith v. Jones & Co" },
       { blankReply with internal_judgments_used := S "Doe v. Roe" }] =
      [{ blankReply with internal_judgments_used := S "Smith v. Jones" },
       { blankReply with internal_judgments_used := S "Smith v. Jones & Co" }] := by
  constructor
  · intro j reps rep
    simp [replies_citing, List.mem_filter, strIn_iff_isInfix]
  · decide

/-- C6: saving the edit form overwrites case name, act name, section number,
authority, brief facts, decision held, and status of the located row with
the resupplied values, while the row's ID, PDF File IDs, and AI Notes cells
are unchanged. -/
theorem C6_edit_form_save (row : SheetRow)
    (e_c_name e_act e_sec e_auth e_facts e_decision e_status : Str)
    (hlen : row.length = 10) :
    row_id (edit_form_save row e_c_name e_act e_sec e_auth e_facts e_decision
        e_status) = row_id row ∧
    row_case_name (edit_form_save row e_c_name e_act e_sec e_auth e_facts
        e_decision e_status) = e_c_name ∧
    row_act_name (edit_form_save row e_c_name e_act e_sec e_auth e_facts
        e_decision e_status) = e_act ∧
    row_section_number (edit_form_save row e_c_name e_act e_sec e_auth e_facts
        e_decision e_status) = e_sec ∧
    row_authority (edit_form_save row e_c_name e_act e_sec e_auth e_facts
        e_decision e_status) = e_auth ∧
    row_brief_facts (edit_form_save row e_c_name e_act e_sec e_auth e_facts
        e_decision e_status) = e_facts ∧
    row_decision_held (edit_form_save row e_c_name e_act e_sec e_auth e_facts
        e_decision e_status) = e_decision ∧
    row_status (edit_form_save row e_c_name e_act e_sec e_auth e_facts
        e_decision e_status) = e_status ∧
    row_pdf_file_ids (edit_form_save row e_c_name e_act e_sec e_auth e_facts
        e_decision e_status) = row_pdf_file_ids row ∧
    row_ai_notes (edit_form_save row e_c_name e_act e_sec e_auth e_facts
        e_decision e_status) = row_ai_notes row := by
  rcases row with _ | ⟨c0, _ | ⟨c1, _ | ⟨c2, _ | ⟨c3, _ | ⟨c4, _ | ⟨c5,
    _ | ⟨c6, _ | ⟨c7, _ | ⟨c8, _ | ⟨c9, tail⟩⟩⟩⟩⟩⟩⟩⟩⟩⟩ <;>
    simp only [List.length_nil, List.length_cons] at hlen <;> try omega
  have htail : tail = [] := by
    have : tail.length = 0 := by omega
    exact List.eq_nil_of_length_eq_zero this
  subst htail
  exact ⟨rfl, rfl, rfl, rfl, rfl, rfl, rfl, rfl, rfl, rfl⟩

/-- C6 witness: `C6_edit_form_save` applied to a concrete ten-cell row and
concrete replacement values. -/
theorem C6_edit_form_save_witness :
    (([S "1700000001", S "Roe v. Doe", S "Act", S "12", S "HC", S "facts",
       S "held", S "1700000001_a.pdf", S "notes", S "🟢 Good Law"] :
        SheetRow).length = 10) ∧
    row_id (edit_form_save
      [S "1700000001", S "Roe v. Doe", S "Act", S "12", S "HC", S "facts",
       S "held", S "1700000001_a.pdf", S "notes", S "🟢 Good Law"]
      (S "Roe v. Doe II") (S "Act") (S "12") (S "HC") (S "facts2") (S "held2")
      (S "🛑 Overruled / Bad Law")) =
    row_id [S "1700000001", S "Roe v. Doe", S "Act", S "12", S "HC", S "facts",
       S "held", S "1700000001_a.pdf", S "notes", S "🟢 Good Law"] :=
  ⟨by decide,
   (C6_edit_form_save
     [S "1700000001", S "Roe v. Doe", S "Act", S "12", S "HC", S "facts",
      S "held", S "1700000001_a.pdf", S "notes", S "🟢 Good Law"]
     (S "Roe v. Doe II") (S "Act") (S "12") (S "HC") (S "facts2") (S "held2")
     (S "🛑 Overruled / Bad Law") (by decide)).1⟩

/-- C10: the Chat-with-PDF tab offers as candidates exactly the stored
judgments whose PDF File IDs cell is non-empty; a judgment with no attached
PDFs never appears among the candidates. -/
theorem C10_chat_judgments :
    (∀ (rows : List Judgment) (r : Judgment),
      r ∈ chat_judgments rows ↔ r ∈ rows ∧ r.pdf_file_ids ≠ []) ∧
    chat_judgments [{ blankJudgment with pdf_file_ids := S "1_a.pdf" },
                    blankJudgment] =
      [{ blankJudgment with pdf_file_ids := S "1_a.pdf" }] := by
  constructor
  · intro rows r
    simp [chat_judgments, List.mem_filter, List.isEmpty_iff]
  · decide

/-- C7: provided every record carries a (required) non-empty matter name,
the sorted matter list of the Internal Matters tab is sorted in ascending
lexicographic string order, has no duplicates, and contains exactly the
union of the usages' internal matter names and the replies' matter names;
on the documented example it is `["Acme Corp", "Beta LLC"]`. -/
theorem C7_all_matters (usages : List InternalUsage)
    (replies : List NoticeReply)
    (hu : ∀ use ∈ usages, use.internal_matter_name ≠ [])
    (hr : ∀ rep ∈ replies, rep.matter_name ≠ []) :
    (all_matters_sorted replies usages).Pairwise
      (fun a b => List.Lex (· < ·) a b ∨ a = b) ∧
    (all_matters_sorted replies usages).Nodup ∧
    (∀ s, s ∈ all_matters_sorted replies usages ↔
      (s ∈ usages.map InternalUsage.internal_matter_name ∨
       s ∈ replies.map NoticeReply.matter_name)) ∧
    all_matters_sorted
      [{ blankReply with matter_name := S "Acme Corp" },
       { blankReply with matter_name := S "Beta LLC" }]
      [{ blankUsage with internal_matter_name := S "Acme Corp" }] =
      [S "Acme Corp", S "Beta LLC"] := by
  have hperm : List.Perm (all_matters_sorted replies usages)
      (all_matters replies usages) := sortStr_perm _
  refine ⟨?_, ?_, ?_, by decide⟩
  · exact (sortStr_pairwise _).imp (fun h => (strLe_iff_lex _ _).1 h)
  · exact (List.Perm.nodup_iff hperm).2 (List.nodup_dedup _)
  · intro s
    rw [List.Perm.mem_iff hperm]
    have h1 : (replies.map NoticeReply.matter_name).filter
        (fun m => !m.isEmpty) = replies.map NoticeReply.matter_name := by
      rw [List.filter_eq_self]
      intro a ha
      rcases List.mem_map.1 ha with ⟨rep, hrep, rfl⟩
      simpa [List.isEmpty_iff] using hr rep hrep
    have h2 : (usages.map InternalUsage.internal_matter_name).filter
        (fun m => !m.isEmpty) = usages.map InternalUsage.internal_matter_name := by
      rw [List.filter_eq_self]
      intro a ha
      rcases List.mem_map.1 ha with ⟨use, huse, rfl⟩
      simpa [List.isEmpty_iff] using hu use huse
    simp only [all_matters, h1, h2, List.mem_dedup, List.mem_append]
    tauto

/-- C7 witness: `C7_all_matters` applied to the documented example records,
with the non-empty-matter-name hypotheses discharged concretely. -/
theorem C7_all_matters_witness :
    (all_matters_sorted
      [{ blankReply with matter_name := S "Acme Corp" },
       { blankReply with matter_name := S "Beta LLC" }]
      [{ blankUsage with internal_matter_name := S "Acme Corp" }]).Nodup :=
  (C7_all_matters
    [{ blankUsage with internal_matter_name := S "Acme Corp" }]
    [{ blankReply with matter_name := S "Acme Corp" },
     { blankReply with matter_name := S "Beta LLC" }]
    (by decide) (by decide)).2.1

/-- C8: the AI auto-fill step leaves the form buffer unchanged on an LLM
error and whenever the fence-stripped response does not parse to a JSON
object (invalid JSON, or a parsed value of another shape — the spec's
missing-expected-shape ParseError); when it parses to an object, every one
of the seven expected keys is overwritten with `data.get(key, "")`,
defaulting to the empty string when the key is absent — in particular the
documented fenced response containing only `case_name: X` fills
`case_name` with `X` and every other key with the empty string. -/
theorem C8_ai_auto_fill :
    (∀ form : FormData, ai_auto_fill form none = form) ∧
    (∀ (form : FormData) (r : Str), loadsObject (strip_fences r) = none →
      ai_auto_fill form (some r) = form) ∧
    (∀ (form : FormData) (r : Str) (data : List (Str × JsonVal)),
      loadsObject (strip_fences r) = some data →
      ai_auto_fill form (some r) =
        { case_name := dictGet data (S "case_name") (JsonVal.jstr []),
          act_name := dictGet data (S "act_name") (JsonVal.jstr []),
          section_number :=
            dictGet data (S "section_number") (JsonVal.jstr []),
          authority := dictGet data (S "authority") (JsonVal.jstr []),
          brief_facts := dictGet data (S "brief_facts") (JsonVal.jstr []),
          decision_held :=
            dictGet data (S "decision_held") (JsonVal.jstr []),
          ai_notes := dictGet data (S "ai_notes") (JsonVal.jstr []) }) ∧
    (∀ form : FormData,
      ai_auto_fill form
          (some (S "```json\n\x7b\"case_name\":\"X\"\x7d\n```")) =
        { case_name := JsonVal.jstr (S "X"), act_name := JsonVal.jstr [],
          section_number := JsonVal.jstr [], authority := JsonVal.jstr [],
          brief_facts := JsonVal.jstr [], decision_held := JsonVal.jstr [],
          ai_notes := JsonVal.jstr [] }) := by
  refine ⟨fun form => rfl, ?_, ?_, fun form => rfl⟩
  · intro form r h
    simp [ai_auto_fill, h]
  · intro form r data h
    simp [ai_auto_fill, h]

/-- C8 witness: `C8_ai_auto_fill` applied concretely: an unparseable
response keeps the buffer; a parsed object with a numeric value fills all
seven keys (`act_name` becomes the number `5`); an escaped line feed in a
value is unescaped to a real line feed.  Each parse hypothesis is
discharged by evaluation. -/
theorem C8_ai_auto_fill_witness :
    ai_auto_fill
        { case_name := JsonVal.jstr (S "kept"), act_name := JsonVal.jstr [],
          section_number := JsonVal.jstr [], authority := JsonVal.jstr [],
          brief_facts := JsonVal.jstr [], decision_held := JsonVal.jstr [],
          ai_notes := JsonVal.jstr [] } (some (S "not json")) =
      { case_name := JsonVal.jstr (S "kept"), act_name := JsonVal.jstr [],
        section_number := JsonVal.jstr [], authority := JsonVal.jstr [],
        brief_facts := JsonVal.jstr [], decision_held := JsonVal.jstr [],
        ai_notes := JsonVal.jstr [] } ∧
    ai_auto_fill
        { case_name := JsonVal.jstr (S "kept"), act_name := JsonVal.jstr [],
          section_number := JsonVal.jstr [], authority := JsonVal.jstr [],
          brief_facts := JsonVal.jstr [], decision_held := JsonVal.jstr [],
          ai_notes := JsonVal.jstr [] } (some (S "\x7b\"act_name\":5\x7d")) =
      { case_name := dictGet [(S "act_name", JsonVal.jnum (S "5"))]
          (S "case_name") (JsonVal.jstr []),
        act_name := dictGet [(S "act_name", JsonVal.jnum (S "5"))]
          (S "act_name") (JsonVal.jstr []),
        section_number := dictGet [(S "act_name", JsonVal.jnum (S "5"))]
          (S "section_number") (JsonVal.jstr []),
        authority := dictGet [(S "act_name", JsonVal.jnum (S "5"))]
          (S "authority") (JsonVal.jstr []),
        brief_facts := dictGet [(S "act_name", JsonVal.jnum (S "5"))]
          (S "brief_facts") (JsonVal.jstr []),
        decision_held := dictGet [(S "act_name", JsonVal.jnum (S "5"))]
          (S "decision_held") (JsonVal.jstr []),
        ai_notes := dictGet [(S "act_name", JsonVal.jnum (S "5"))]
          (S "ai_notes") (JsonVal.jstr []) } ∧
    ai_auto_fill
        { case_name := JsonVal.jstr (S "kept"), act_name := JsonVal.jstr [],
          section_number := JsonVal.jstr [], authority := JsonVal.jstr [],
          brief_facts := JsonVal.jstr [], decision_held := JsonVal.jstr [],
          ai_notes := JsonVal.jstr [] }
        (some (S "\x7b\"brief_facts\":\"x\\ny\"\x7d")) =
      { case_name := dictGet [(S "brief_facts", JsonVal.jstr (S "x\ny"))]
          (S "case_name") (JsonVal.jstr []),
        act_name := dictGet [(S "brief_facts", JsonVal.jstr (S "x\ny"))]
          (S "act_name") (JsonVal.jstr []),
        section_number := dictGet [(S "brief_facts", JsonVal.jstr (S "x\ny"))]
          (S "section_number") (JsonVal.jstr []),
        authority := dictGet [(S "brief_facts", JsonVal.jstr (S "x\ny"))]
          (S "authority") (JsonVal.jstr []),
        brief_facts := dictGet [(S "brief_facts", JsonVal.jstr (S "x\ny"))]
          (S "brief_facts") (JsonVal.jstr []),
        decision_held := dictGet [(S "brief_facts", JsonVal.jstr (S "x\ny"))]
          (S "decision_held") (JsonVal.jstr []),
        ai_notes := dictGet [(S "brief_facts", JsonVal.jstr (S "x\ny"))]
          (S "ai_notes") (JsonVal.jstr []) } :=
  ⟨C8_ai_auto_fill.2.1 _ (S "not json") rfl,
   C8_ai_auto_fill.2.2.1 _ (S "\x7b\"act_name\":5\x7d")
     [(S "act_name", JsonVal.jnum (S "5"))] rfl,
   C8_ai_auto_fill.2.2.1 _ (S "\x7b\"brief_facts\":\"x\\ny\"\x7d")
     [(S "brief_facts", JsonVal.jstr (S "x\ny"))] rfl⟩

/-- C9: provided every status is one of the three selectbox labels, the
good-law catalog string is the concatenation of one formatted line per
judgment whose status is Good Law — carrying its id, case name, brief facts
and decision held — with no line for any other status, and the portion
embedded in the suggestion prompt is the catalog cut to the 30000-character
budget by raw character count. -/
theorem C9_good_law_catalog (rs : List Judgment)
    (h : ∀ j ∈ rs, j.status = statusGoodLaw ∨ j.status = statusDistinguished ∨
      j.status = statusOverruled) :
    good_law_catalog rs =
      ((rs.filter (fun j => j.status == statusGoodLaw)).map
        catalog_line).flatten ∧
    good_law_catalog_trunc rs = (good_law_catalog rs).take 30000 ∧
    (good_law_catalog_trunc rs).length =
      min 30000 (good_law_catalog rs).length := by
  refine ⟨?_, rfl, ?_⟩
  · have hf : rs.filter (fun j => strIn (S "Good Law") j.status) =
        rs.filter (fun j => j.status == statusGoodLaw) := by
      apply List.filter_congr
      intro j hj
      rcases h j hj with h1 | h1 | h1 <;> rw [h1] <;> decide
    rw [good_law_catalog, good_law_catalog_foldl rs [], hf, List.nil_append]
  · rw [good_law_catalog_trunc, List.length_take]

/-- C9 witness: `C9_good_law_catalog` applied to a concrete store holding
one Good Law and one Overruled judgment. -/
theorem C9_good_law_catalog_witness :
    good_law_catalog
      [{ blankJudgment with
          id := S "1", case_name := S "Roe v. Doe",
          brief_facts := S "f", decision_held := S "d",
          status := statusGoodLaw },
       { blankJudgment with
          id := S "2", case_name := S "Smith v. Jones",
          brief_facts := S "g", decision_held := S "e",
          status := statusOverruled }] =
      (([{ blankJudgment with
            id := S "1", case_name := S "Roe v. Doe",
            brief_facts := S "f", decision_held := S "d",
            status := statusGoodLaw },
          { blankJudgment with
            id := S "2", case_name := S "Smith v. Jones",
            brief_facts := S "g", decision_held := S "e",
            status := statusOverruled }].filter
          (fun j => j.status == statusGoodLaw)).map catalog_line).flatten :=
  (C9_good_law_catalog
    [{ blankJudgment with
        id := S "1", case_name := S "Roe v. Doe",
        brief_facts := S "f", decision_held := S "d",
        status := statusGoodLaw },
     { blankJudgment with
        id := S "2", case_name := S "Smith v. Jones",
        brief_facts := S "g", decision_held := S "e",
        status := statusOverruled }] (by decide)).1

end KnowledgeBank
